import Mathlib

/-!
# LexiAid backend: shallow embedding and verification

This file embeds the turn-orchestration core of the LexiAid backend
(supervisor graph, quiz engine graph, and the `/api/v2/agent/chat` route)
as executable Lean definitions, translated from:

* `backend/utils/message_utils.py` (message serialization),
* `backend/graphs/supervisor/utils.py` (query classifiers),
* `backend/graphs/supervisor/nodes_routing.py` (ingestion + routing nodes),
* `backend/graphs/supervisor/nodes_invokers.py` (chat / quiz invoker nodes),
* `backend/graphs/quiz_engine_graph.py` (quiz lifecycle engine),
* `backend/app.py` (`agent_chat_route`: input validation, checkpoint writes,
  response assembly).

External collaborators (the LLM, the speech-to-text service, the document
retrieval service, the chat sub-graph) are modelled as oracle parameters; all
repository logic is translated directly from the source.

Conventions: Python `None`-able values become `Option`; Python truthiness on
strings/options is `optTruthy`; LangGraph node updates are merged into the
state per key, so each node is either a `State → State` function updating
exactly the keys its Python `updates` dict contains, or (for the routing node,
which reads its own updates dict back) an explicit partial-updates record.
-/

set_option maxHeartbeats 1600000

namespace LexiAid

/-- Python truthiness of an optional string (`None` and `""` are falsy). -/
def optTruthy : Option String → Bool
  | none => false
  | some s => s ≠ ""

/-- Python `str` whitespace (ASCII range), as stripped by `str.strip()`. -/
def isPySpace (c : Char) : Bool :=
  c = ' ' || c = '\t' || c = '\n' || c = '\x0d' || c = '\x0c' || c = '\x0b'

/-- Python `str.strip()`: drop whitespace from both ends (structural, so
concrete instances evaluate by `rfl`/`decide`). -/
def pyStrip (s : String) : String :=
  String.mk (((s.toList.dropWhile isPySpace).reverse.dropWhile isPySpace).reverse)

/-- Python `str.lower()` (ASCII case folding). -/
def pyLower (s : String) : String :=
  String.mk (s.toList.map Char.toLower)

/-! ## Conversation history items (`langchain` messages and their dict form)

`serialize_messages` / `deserialize_messages` from
`backend/utils/message_utils.py` walk a list whose items are either live
`BaseMessage` objects (`HumanMessage`, `AIMessage`, `SystemMessage`) or
already-serialized dicts `{"type": tag, "data": {"content": text}}`.
-/

/-- One item of a conversation history: a live message object of one of the
three roles used by the repository, or its serialized dict form. -/
inductive HistItem where
  | human (content : String)
  | ai (content : String)
  | system (content : String)
  | ser (tag : String) (content : String)
  deriving Repr, DecidableEq

/-- `messages_to_dict([m])[0]` for one live message: record its role tag and
content. -/
def messageToDict : HistItem → HistItem
  | .human c => .ser "human" c
  | .ai c => .ser "ai" c
  | .system c => .ser "system" c
  | .ser t c => .ser t c

/-- `serialize_messages`: convert live `BaseMessage` items to dicts, pass
dicts (and anything else) through unchanged. -/
def serialize_messages (msgs : List HistItem) : List HistItem :=
  msgs.map fun m =>
    match m with
    | .ser t c => .ser t c
    | live => messageToDict live

/-- `messages_from_dict([m])[0]` for one dict with a `"type"` key: rebuild the
message object for the three supported role tags. (For any other tag the
library raises; such tags are never produced by this repository, and we leave
the item unchanged.) -/
def messageFromDict : HistItem → HistItem
  | .ser "human" c => .human c
  | .ser "ai" c => .ai c
  | .ser "system" c => .system c
  | m => m

/-- `deserialize_messages`: rebuild message objects from dicts that carry a
`"type"` key, pass live messages through unchanged. -/
def deserialize_messages (msgs : List HistItem) : List HistItem :=
  msgs.map fun m =>
    match m with
    | .ser t c => messageFromDict (.ser t c)
    | live => live

/-- An item is a live role-tagged message (not a raw dict). -/
def HistItem.isLiveMessage : HistItem → Bool
  | .ser _ _ => false
  | _ => true

/-! ## Supervisor query classifiers (`backend/graphs/supervisor/utils.py`) -/

/-- The single-quote character, written by code point to keep it out of
string literals. -/
def sq : Char := Char.ofNat 39

/-- `query.replace("'", "").replace('"', "")`: drop both quote characters. -/
def removeQuotes (s : String) : String :=
  String.mk (s.toList.filter fun c => c ≠ sq && c ≠ '"')

/-- Does `pat` occur at the head of the second list? -/
def listStartsWith : List Char → List Char → Bool
  | [], _ => true
  | _ :: _, [] => false
  | p :: ps, c :: cs => p = c && listStartsWith ps cs

/-- Is `needle` a contiguous sublist of `hay`? -/
def listIsInfix (needle : List Char) : List Char → Bool
  | [] => needle.isEmpty
  | c :: rest => listStartsWith needle (c :: rest) || listIsInfix needle rest

/-- Substring containment (Python `needle in hay`). -/
def containsSubstr (hay needle : String) : Bool :=
  listIsInfix needle.toList hay.toList

/-- `is_quiz_start_query`: normalize by lowercasing, stripping whitespace and
removing quotes; then either the exact `/start_quiz` command or substring
containment of one of three natural-language phrases. -/
def is_quiz_start_query (query : String) : Bool :=
  let query_clean := removeQuotes (pyStrip (pyLower query))
  if query_clean = "/start_quiz" then true
  else
    ["start quiz", "quiz me on", "begin quiz"].any fun phrase =>
      containsSubstr query_clean phrase

/-- `is_cancel_query`: exact match (after lowercasing and stripping) against
four cancellation phrases. -/
def is_cancel_query (query : String) : Bool :=
  let query_lower := pyStrip (pyLower query)
  query_lower ∈ ["cancel quiz", "stop quiz", "exit quiz", "end quiz"]

/-- `is_document_understanding_query`: lowercase (no strip), then substring
containment of one of eight phrases. -/
def is_document_understanding_query (query : String) : Bool :=
  let query_lower := pyLower query
  ["understand this document", "analyze this document", "explain this document",
   "deep dive document", "document analysis", "summarize document structure",
   "process this pdf deeper", "extract layout from this document"].any fun phrase =>
    containsSubstr query_lower phrase

/-! ## `extract_document_id` (regex `doc(?:ument_id)?[:\s=]?([a-zA-Z0-9_-]+)`,
case-insensitive `re.search`) -/

/-- The capture-group character class `[a-zA-Z0-9_-]`. -/
def isDocIdChar (c : Char) : Bool :=
  (c ≥ 'a' && c ≤ 'z') || (c ≥ 'A' && c ≤ 'Z') || (c ≥ '0' && c ≤ '9') ||
    c = '_' || c = '-'

/-- The separator class `[:\s=]` (ASCII whitespace as matched by `\s`). -/
def isDocSepChar (c : Char) : Bool :=
  c = ':' || c = '=' || c = ' ' || c = '\t' || c = '\n' ||
    c = '\x0d' || c = '\x0c' || c = '\x0b'

/-- Match `([a-zA-Z0-9_-]+)` greedily at the start of `l`. -/
def matchDocIdGroup (l : List Char) : Option (List Char) :=
  let g := l.takeWhile isDocIdChar
  if g.isEmpty then none else some g

/-- Match `[:\s=]?([a-zA-Z0-9_-]+)` at the start of `l`, preferring to consume
the optional separator (with backtracking, as the regex engine does). -/
def matchSepThenGroup (l : List Char) : Option (List Char) :=
  match l with
  | [] => none
  | c :: rest =>
    if isDocSepChar c then
      match matchDocIdGroup rest with
      | some g => some g
      | none => matchDocIdGroup l
    else matchDocIdGroup l

/-- Case-insensitive literal match of `pat` at the head of `l`; returns the
remainder on success. -/
def matchLitCI (pat : List Char) (l : List Char) : Option (List Char) :=
  match pat, l with
  | [], rest => some rest
  | _ :: _, [] => none
  | p :: ps, c :: cs => if c.toLower = p then matchLitCI ps cs else none

/-- Attempt the whole pattern at the start of `l`: `doc`, then the greedy
optional `(?:ument_id)?` (with backtracking), then separator + group. -/
def matchDocPatternHere (l : List Char) : Option (List Char) :=
  match matchLitCI ("doc".toList) l with
  | none => none
  | some rest =>
    match matchLitCI ("ument_id".toList) rest with
    | some rest2 =>
      match matchSepThenGroup rest2 with
      | some g => some g
      | none => matchSepThenGroup rest
    | none => matchSepThenGroup rest

/-- `re.search`: scan left to right for the first start position where the
pattern matches; return the captured group. -/
def searchDocPattern : List Char → Option (List Char)
  | [] => none
  | c :: rest =>
    match matchDocPatternHere (c :: rest) with
    | some g => some g
    | none => searchDocPattern rest

/-- `extract_document_id`: regex search for `doc(?:ument_id)?[:\s=]?(id)`. -/
def extract_document_id (query : String) : Option String :=
  (searchDocPattern query.toList).map String.mk

/-! ## Quiz engine (`backend/graphs/quiz_engine_graph.py`) -/

/-- `LLMQuestionDetail`: one generated multiple-choice question. -/
structure LLMQuestionDetail where
  question_text : String
  options : List String
  correct_answer_index : Nat
  explanation_for_correct_answer : Option String
  deriving Repr, DecidableEq

/-- `LLMQuizResponse`: the raw (pre-validation) parsed LLM reply. -/
structure LLMQuizResponse where
  feedback_for_user : Option String
  is_correct : Option Bool
  next_question : Option LLMQuestionDetail
  quiz_is_complete : Bool
  final_summary : Option String
  deriving Repr, DecidableEq

/-- Pydantic field validation of `LLMQuestionDetail`: `options` has between 2
and 5 entries (`min_length`/`max_length` on the field) and
`correct_answer_index` is a valid index into `options`. Returns the raised
message, or `none` when valid. -/
def validateQuestion (q : LLMQuestionDetail) : Option String :=
  if q.options.length < 2 || 5 < q.options.length then
    some "options list length out of range"
  else if ¬ (q.correct_answer_index < q.options.length) then
    some "correct_answer_index must be a valid index for the options list"
  else none

/-- The `check_next_question_and_completion` model validator of
`LLMQuizResponse`, checked in source order. -/
def validateCompletionShape (r : LLMQuizResponse) : Option String :=
  if r.quiz_is_complete && r.next_question.isSome then
    some "next_question must be null if quiz_is_complete is true"
  else if !r.quiz_is_complete && r.next_question.isNone then
    some "next_question cannot be null if quiz_is_complete is false"
  else if r.quiz_is_complete && r.final_summary.isNone then
    some "final_summary must be provided if quiz_is_complete is true"
  else none

/-- Full Pydantic validation of a parsed reply: nested field validation first
(while parsing `next_question`), then the model validator. -/
def validateLLMResponse (r : LLMQuizResponse) : Option String :=
  match r.next_question with
  | some q =>
    match validateQuestion q with
    | some e => some e
    | none => validateCompletionShape r
  | none => validateCompletionShape r

/-- The quiz lifecycle statuses of `QuizEngineState` (`Literal[...]`). -/
inductive QuizStatus where
  | initializing
  | generating_first_question
  | awaiting_answer
  | evaluating_answer
  | quiz_completed
  | error
  deriving Repr, DecidableEq

/-- Rendering of a status into prompt/error strings. -/
def QuizStatus.str : QuizStatus → String
  | .initializing => "initializing"
  | .generating_first_question => "generating_first_question"
  | .awaiting_answer => "awaiting_answer"
  | .evaluating_answer => "evaluating_answer"
  | .quiz_completed => "quiz_completed"
  | .error => "error"

/-- One entry of `quiz_history` (a plain dict in the source). -/
structure QuizHistoryEntry where
  question_text : String
  options : List String
  correct_answer_index : Nat
  correct_answer_text : String
  explanation_for_correct_answer : Option String
  user_answer : Option String
  is_correct_from_llm : Option Bool
  feedback_from_llm : Option String
  deriving Repr, DecidableEq

/-- What `call_quiz_engine_node` shows the caller for the current question. -/
structure QuestionDisplay where
  question_text : String
  options : List String
  deriving Repr, DecidableEq

/-- `QuizEngineState` (a `TypedDict` in the source; the graph merges node
updates into it key by key, so our node function returns the merged state).
`current_question_index` is a Python `int` and may be negative, hence `Int`. -/
structure QuizEngineState where
  document_id : Option String := none
  document_content_snippet : String := ""
  user_id : String := ""
  max_questions : Nat := 0
  user_answer : Option String := none
  active_quiz_thread_id : Option String := none
  quiz_history : List QuizHistoryEntry := []
  current_question_index : Int := 0
  current_question_number : Option Nat := none
  score : Nat := 0
  llm_json_response : Option LLMQuizResponse := none
  llm_call_count : Nat := 0
  current_question_to_display : Option QuestionDisplay := none
  current_feedback_to_display : Option String := none
  status : QuizStatus := .initializing
  error_message : Option String := none
  deriving Repr, DecidableEq

/-- Outcome of one `chain.invoke` call against the LLM: either the parsed
(pre-validation) reply, or an exception (timeout, transport, malformed JSON)
carrying the exception's rendered text. -/
inductive LLMOutcome where
  | ok (r : LLMQuizResponse)
  | exn (msg : String)
  deriving Repr, DecidableEq

/-- The `except` branch of `call_quiz_engine_node`: force status `error`,
record the exception text, and surface a fixed human-readable message. All
other keys are left untouched (the update dict has exactly these three keys). -/
def quizEngineErrorState (state : QuizEngineState) (msg : String) : QuizEngineState :=
  { state with
    status := .error
    error_message := some ("Error in quiz engine node: " ++ msg)
    current_feedback_to_display := some "An unexpected error occurred." }

/-- Number of history entries whose `user_answer` is non-null. -/
def answeredCount (history : List QuizHistoryEntry) : Nat :=
  (history.filter fun e => e.user_answer.isSome).length

/-- The history entry at `current_question_index`, when the index is valid. -/
def currentEntry (state : QuizEngineState) : Option QuizHistoryEntry :=
  if 0 ≤ state.current_question_index then
    state.quiz_history.get? state.current_question_index.toNat
  else none

/-- `call_quiz_engine_node`, the single node of the quiz engine graph. The
LLM call is the oracle `llm`; everything else is the source logic. The node
returns the merged post-node state (input state overwritten by the keys the
node's update dict sets). -/
def call_quiz_engine_node (state : QuizEngineState) (llm : LLMOutcome) :
    QuizEngineState :=
  -- `get_quiz_engine_chain` raises for statuses other than the two below.
  if state.status = .generating_first_question ∨
      state.status = .evaluating_answer then
    -- pre-invoke guard of the `evaluating_answer` branch
    if state.status = .evaluating_answer ∧
        (state.quiz_history = [] ∨ state.current_question_index < 0 ∨
          (state.quiz_history.length : Int) ≤ state.current_question_index) then
      quizEngineErrorState state
        "ValueError - Invalid current_question_index or empty quiz_history for evaluation."
    else
      match llm with
      | .exn msg => quizEngineErrorState state msg
      | .ok r =>
        match validateLLMResponse r with
        | some msg => quizEngineErrorState state ("ValidationError - " ++ msg)
        | none =>
          -- mark the just-answered entry and adjust the score
          let evaluating :=
            r.is_correct.isSome ∧ state.status = .evaluating_answer
          let idx := state.current_question_index.toNat
          let new_quiz_history :=
            if evaluating then
              match state.quiz_history.get? idx with
              | some e =>
                state.quiz_history.set idx
                  { e with
                    user_answer := state.user_answer
                    is_correct_from_llm := r.is_correct
                    feedback_from_llm := r.feedback_for_user }
              | none => state.quiz_history
            else state.quiz_history
          let new_score :=
            if evaluating ∧ r.is_correct = some true then state.score + 1
            else state.score
          let feedback :=
            if evaluating then r.feedback_for_user else none
          if r.quiz_is_complete then
            let final_answer_feedback := (r.feedback_for_user.filter (· ≠ "")).getD ""
            let quiz_summary := (r.final_summary.filter (· ≠ "")).getD
              ("Quiz complete! Your final score is " ++ toString new_score ++ "/" ++
                toString state.max_questions ++ ".")
            { state with
              llm_json_response := some r
              score := new_score
              status := .quiz_completed
              current_question_to_display := none
              current_feedback_to_display :=
                some (final_answer_feedback ++ "\n\n" ++ quiz_summary)
              quiz_history := new_quiz_history
              user_answer := none
              llm_call_count := state.llm_call_count + 1 }
          else
            match r.next_question with
            | some next_q =>
              let new_question_entry : QuizHistoryEntry :=
                { question_text := next_q.question_text
                  options := next_q.options
                  correct_answer_index := next_q.correct_answer_index
                  -- in-bounds by `validateQuestion` on this path
                  correct_answer_text :=
                    next_q.options.getD next_q.correct_answer_index ""
                  explanation_for_correct_answer :=
                    next_q.explanation_for_correct_answer
                  user_answer := none
                  is_correct_from_llm := none
                  feedback_from_llm := none }
              let appended := new_quiz_history ++ [new_question_entry]
              { state with
                llm_json_response := some r
                score := new_score
                current_feedback_to_display := feedback
                quiz_history := appended
                current_question_index := (appended.length : Int) - 1
                current_question_number := some appended.length
                status := .awaiting_answer
                current_question_to_display :=
                  some ⟨next_q.question_text, next_q.options⟩
                user_answer := none
                llm_call_count := state.llm_call_count + 1 }
            | none =>
              -- line 265: raised inside the `try`, hence caught below
              quizEngineErrorState state
                "ValueError - LLM indicated quiz not complete but failed to provide the next question."
  else
    quizEngineErrorState state
      ("ValueError - Quiz engine called with unexpected status: " ++ state.status.str)

/-! ## Supervisor state (`backend/graphs/supervisor/state.py`)

The `SupervisorState` TypedDict declares the LangGraph channels. The nodes
additionally read and write the keys `quiz_v2_output` and
`options_for_display`, and `agent_chat_route` supplies the legacy keys
`quiz_active`, `active_quiz_thread_id`, `quiz_complete`, `quiz_cancelled`;
we model all of them as state fields (carried across the turn), noting that
no supervisor node ever writes any of the legacy keys. -/

/-- The routing targets (`next_graph_to_invoke` literals, plus the `"self"`
value the quiz invoker writes transiently). -/
inductive NextGraph where
  | quiz_engine_graph
  | new_chat_graph
  | document_understanding_graph
  | endGraph
  | selfGraph
  deriving Repr, DecidableEq

/-- The `quiz_v2_output` payload: either the routing node's cancellation note
or the full quiz-engine state the invoker stores. -/
inductive QuizV2Output where
  | cancelled (feedback_for_user : String)
  | engine (st : QuizEngineState)
  deriving Repr, DecidableEq

/-- The single-quote character as a string, for message literals. -/
def sqs : String := String.singleton sq

/-- The supervisor graph state. -/
structure SupervisorState where
  user_id : String := ""
  current_query : String := ""
  conversation_history : List HistItem := []
  active_chat_thread_id : Option String := none
  active_dua_thread_id : Option String := none
  document_id_for_action : Option String := none
  document_snippet_for_quiz : Option String := none
  next_graph_to_invoke : Option NextGraph := none
  final_agent_response : Option String := none
  supervisor_error_message : Option String := none
  active_quiz_v2_thread_id : Option String := none
  quiz_engine_state : Option QuizEngineState := none
  is_quiz_v2_active : Bool := false
  audio_input_present : Bool := false
  gcs_uri_for_action : Option String := none
  mime_type_for_action : Option String := none
  document_understanding_output : Option String := none
  document_understanding_error : Option String := none
  -- keys used by the nodes though not declared in the TypedDict
  quiz_v2_output : Option QuizV2Output := none
  options_for_display : Option (List String) := none
  -- legacy keys supplied by `agent_chat_route`, never written by any node
  quiz_active : Bool := false
  active_quiz_thread_id : Option String := none
  quiz_complete : Bool := false
  quiz_cancelled : Bool := false
  deriving Repr, DecidableEq

/-! ## Turn ingestion (`receive_user_input_node`) -/

/-- Outcome of the speech-to-text attempt for a turn that carries audio:
a transcript, no recognition result, or a failure (unsupported format or
exception), carrying the error text the node stores. -/
inductive STTOut where
  | ok (transcript : String)
  | noResult
  | failed (msg : String)
  deriving Repr, DecidableEq

/-- The tail of `receive_user_input_node` shared by the non-early paths:
document-id extraction, the preliminary routing decision, chat-thread
minting, stale-field clearing, and history serialization. -/
def receive_finalize (s0 : SupervisorState) (chatSfx : String) :
    SupervisorState :=
  let s1 :=
    if ¬ optTruthy s0.document_id_for_action then
      match extract_document_id s0.current_query with
      | some d => { s0 with document_id_for_action := some d }
      | none => s0
    else s0
  let nxt : NextGraph :=
    if s1.is_quiz_v2_active then .quiz_engine_graph
    else if is_document_understanding_query s1.current_query then
      .document_understanding_graph
    else if is_quiz_start_query s1.current_query then .quiz_engine_graph
    else .new_chat_graph
  let s2 := { s1 with next_graph_to_invoke := some nxt }
  let s3 :=
    if ¬ optTruthy s2.active_chat_thread_id ∧ s2.user_id ≠ "" then
      { s2 with
          active_chat_thread_id :=
            some ("chat_thread_" ++ s2.user_id ++ "_" ++ chatSfx) }
    else s2
  let s4 :=
    if nxt ≠ .document_understanding_graph then
      { s3 with document_understanding_output := none
                document_understanding_error := none }
    else s3
  let s5 :=
    if nxt ≠ .quiz_engine_graph then
      { s4 with document_snippet_for_quiz := none }
    else s4
  { s5 with conversation_history := serialize_messages s5.conversation_history }

/-- `receive_user_input_node`: normalize the query (running speech-to-text
when audio is present), append the utterance to the history, extract an
embedded document id, make the preliminary routing decision, mint a chat
thread id, clear stale fields, and serialize the history. Returns the merged
state (the node's update dict carries every key it touches; untouched keys
are carried by the graph). -/
def receive_user_input_node (state : SupervisorState) (stt : STTOut)
    (chatSfx : String) : SupervisorState :=
  let q0 := pyStrip state.current_query
  let (q1, sttErr) :=
    if state.audio_input_present then
      match stt with
      | .ok t => (pyStrip t, (none : Option String))
      | .noResult => (q0, none)
      | .failed msg => (q0, some msg)
    else (q0, none)
  let base := { state with
    current_query := q1
    next_graph_to_invoke := none
    final_agent_response := none
    supervisor_error_message := sttErr
    audio_input_present := false }
  if q1 ≠ "" then
    receive_finalize { base with
      conversation_history := base.conversation_history ++ [.human q1] } chatSfx
  else if base.conversation_history = [] ∧
      ¬ optTruthy base.document_understanding_output ∧
      base.is_quiz_v2_active = false then
    -- early return: greeting, target `end`, history untouched (and, being
    -- empty here, trivially serialized)
    { base with
      final_agent_response := some "Hello! How can I help you today?"
      next_graph_to_invoke := some .endGraph }
  else
    receive_finalize base chatSfx

/-! ## Routing decision (`routing_decision_node`)

This node reads its own `updates` dict back (steps 4–6 of the source), so we
model the update dict explicitly: an outer `Option` marks whether the key is
present in the dict, the inner value is what it carries. -/

/-- `get_document_metadata`'s result payload. -/
structure DocMetadata where
  gcs_uri : Option String := none
  mime_type : Option String := none
  error : Option String := none
  deriving Repr, DecidableEq

/-- The document-retrieval collaborator visible to the routing node:
`get_document_content_for_quiz` returns `(success, content, error)`, and
`get_document_metadata` returns `(success, metadata)`. -/
structure DocService where
  get_document_content_for_quiz : String → Bool × Option String × Option String
  get_document_metadata : String → Bool × DocMetadata

/-- The routing node's partial update dict. -/
structure RoutingUpdates where
  is_quiz_v2_active : Option Bool := none
  active_quiz_v2_thread_id : Option (Option String) := none
  quiz_v2_output : Option (Option QuizV2Output) := none
  final_agent_response : Option (Option String) := none
  next_graph_to_invoke : Option (Option NextGraph) := none
  supervisor_error_message : Option (Option String) := none
  document_snippet_for_quiz : Option (Option String) := none
  document_id_for_action : Option (Option String) := none
  gcs_uri_for_action : Option (Option String) := none
  mime_type_for_action : Option (Option String) := none
  deriving Repr, DecidableEq

/-- Merge a routing update dict into the state (LangGraph per-key merge). -/
def applyRoutingUpdates (s : SupervisorState) (u : RoutingUpdates) :
    SupervisorState :=
  { s with
    is_quiz_v2_active := u.is_quiz_v2_active.getD s.is_quiz_v2_active
    active_quiz_v2_thread_id :=
      u.active_quiz_v2_thread_id.getD s.active_quiz_v2_thread_id
    quiz_v2_output := u.quiz_v2_output.getD s.quiz_v2_output
    final_agent_response := u.final_agent_response.getD s.final_agent_response
    next_graph_to_invoke := u.next_graph_to_invoke.getD s.next_graph_to_invoke
    supervisor_error_message :=
      u.supervisor_error_message.getD s.supervisor_error_message
    document_snippet_for_quiz :=
      u.document_snippet_for_quiz.getD s.document_snippet_for_quiz
    document_id_for_action :=
      u.document_id_for_action.getD s.document_id_for_action
    gcs_uri_for_action := u.gcs_uri_for_action.getD s.gcs_uri_for_action
    mime_type_for_action := u.mime_type_for_action.getD s.mime_type_for_action }

/-- `routing_decision_node`: refine the routing decision, handle quiz start
and cancellation. The returned record is the node's `updates` dict. -/
def routing_decision_node (state : SupervisorState) (svc : Option DocService)
    (quizSfx : String) : RoutingUpdates :=
  let current_query := pyLower (pyStrip state.current_query)
  -- 1. active quiz: cancellation or answer forwarding
  if state.is_quiz_v2_active then
    if is_cancel_query current_query then
      { is_quiz_v2_active := some false
        active_quiz_v2_thread_id := some none
        quiz_v2_output :=
          some (some (.cancelled "Quiz cancelled as per your request."))
        final_agent_response := some (some ("Okay, I" ++ sqs ++
          "ve cancelled the quiz. What would you like to do next?"))
        next_graph_to_invoke := some (some .endGraph) }
    else
      { next_graph_to_invoke := some (some .quiz_engine_graph)
        document_snippet_for_quiz := some none }
  -- 2. document-understanding routing
  else if state.next_graph_to_invoke = some .document_understanding_graph then
    if ¬ optTruthy state.document_id_for_action then
      { supervisor_error_message :=
          some (some "Cannot analyze document: Document ID is missing.")
        final_agent_response := some (some ("I can" ++ sqs ++
          "t analyze a document without knowing which one."))
        next_graph_to_invoke := some (some .endGraph) }
    else if ¬ optTruthy state.gcs_uri_for_action ∨
        ¬ optTruthy state.mime_type_for_action then
      match svc with
      | some service =>
        let (success, metadata) :=
          service.get_document_metadata (state.document_id_for_action.getD "")
        if success ∧ optTruthy metadata.gcs_uri ∧ optTruthy metadata.mime_type
        then
          -- both were just written into `updates`, so the stale-check after
          -- the fetch passes and the route is confirmed
          { gcs_uri_for_action := some metadata.gcs_uri
            mime_type_for_action := some metadata.mime_type
            next_graph_to_invoke :=
              some (some .document_understanding_graph) }
        else
          { supervisor_error_message := some (some
              ("Failed to fetch metadata for DUA: " ++
                metadata.error.getD "Unknown error retrieving document details."))
            final_agent_response := some (some ("I couldn" ++ sqs ++
              "t retrieve the necessary details for document analysis."))
            next_graph_to_invoke := some (some .endGraph) }
      | none =>
        { supervisor_error_message :=
            some (some "DocumentRetrievalService is unavailable.")
          final_agent_response := some
            (some "System error: Cannot retrieve document details for analysis.")
          next_graph_to_invoke := some (some .endGraph) }
    else
      -- the state already carries both values, so the metadata fetch is
      -- skipped; but the subsequent check reads the *updates* dict, which
      -- has neither key, and therefore takes the error path
      { supervisor_error_message := some (some
          "GCS URI or MIME type still missing after metadata fetch attempt.")
        final_agent_response := some
          (some "Technical details required for document analysis are missing.")
        next_graph_to_invoke := some (some .endGraph) }
  -- 3. quiz start
  else if state.next_graph_to_invoke = some .quiz_engine_graph ∨
      (is_quiz_start_query current_query ∧ ¬ state.is_quiz_v2_active) then
    if ¬ optTruthy state.document_id_for_action then
      { supervisor_error_message :=
          some (some "Cannot start quiz: Document ID is missing.")
        final_agent_response := some (some ("I can" ++ sqs ++
          "t start a quiz without a document. Please specify one."))
        next_graph_to_invoke := some (some .endGraph) }
    else
      match svc with
      | none =>
        { supervisor_error_message := some (some
            "DocumentRetrievalService is unavailable to fetch quiz content.")
          final_agent_response :=
            some (some "System error: Unable to prepare quiz content.")
          next_graph_to_invoke := some (some .endGraph) }
      | some service =>
        let d := state.document_id_for_action.getD ""
        let (fetch_success, snippet, fetch_error) :=
          service.get_document_content_for_quiz d
        if fetch_success ∧ optTruthy snippet then
          { document_snippet_for_quiz := some snippet
            document_id_for_action := some (some d)
            is_quiz_v2_active := some true
            active_quiz_v2_thread_id := some (some ("quiz_v2_thread_" ++
              state.user_id ++ "_" ++ d ++ "_" ++ quizSfx))
            quiz_v2_output := some none
            next_graph_to_invoke := some (some .quiz_engine_graph) }
        else
          { supervisor_error_message := some (some ((fetch_error.filter
              (· ≠ "")).getD "Failed to retrieve document content for the quiz."))
            final_agent_response := some (some ("I couldn" ++ sqs ++
              "t get the content needed to start the quiz. Please try again or select a different document."))
            is_quiz_v2_active := some false
            next_graph_to_invoke := some (some .endGraph) }
  else
    -- 4. the default branch always fires here (the updates dict is empty, so
    -- `not updates.get("next_graph_to_invoke")` holds); 5. then sees
    -- `new_chat_graph ≠ end` and does nothing; 6. reads only the updates
    -- dict, which carries no quiz keys, so the safeguard never fires
    { next_graph_to_invoke := some (some .new_chat_graph) }

/-! ## Invoker nodes (`backend/graphs/supervisor/nodes_invokers.py`) -/

/-- `DEFAULT_MAX_QUIZ_QUESTIONS`. -/
def DEFAULT_MAX_QUIZ_QUESTIONS : Nat := 5

/-- Outcome of `graph_instance.invoke` on the chat sub-graph: a response
state, a falsy response state, or an exception. -/
inductive ChatOutcome where
  | ok (response : Option String) (messages : List HistItem)
      (error_message : Option String)
  | empty
  | raised (msg : String)
  deriving Repr, DecidableEq

/-- `invoke_new_chat_graph_node`. The chat sub-graph call is the oracle
`outcome`; the quiz-v2 fields are passed through unchanged. -/
def invoke_new_chat_graph_node (state : SupervisorState)
    (outcome : ChatOutcome) : SupervisorState :=
  let base := { state with
    current_query := pyStrip state.current_query
    next_graph_to_invoke := some .endGraph
    final_agent_response := none
    supervisor_error_message := none }
  -- the two guard failures return early, skipping the final serialization
  if state.user_id = "" then
    { base with
      supervisor_error_message :=
        some "User ID is required for the new chat graph."
      final_agent_response := some ("I" ++ sqs ++
        "m sorry, there was an issue identifying your user session. Please try again.") }
  else if ¬ optTruthy state.active_chat_thread_id then
    { base with
      supervisor_error_message :=
        some "Active chat thread ID is required for the new chat graph."
      final_agent_response := some ("I" ++ sqs ++
        "m sorry, there was a problem with tracking our conversation. Please try starting a new one.") }
  else
    let result :=
      match outcome with
      | .ok response messages error_message =>
        let s1 := { base with final_agent_response := response }
        let s2 :=
          if messages ≠ [] then
            { s1 with conversation_history := serialize_messages messages }
          else s1
        if optTruthy error_message ∧ ¬ optTruthy s2.final_agent_response then
          { s2 with
            final_agent_response :=
              some "I encountered an issue while processing your request." }
        else s2
      | .empty =>
        { base with
          supervisor_error_message := some "New chat graph returned no response."
          final_agent_response := some ("I" ++ sqs ++ "m sorry, I couldn" ++
            sqs ++ "t process your request at the moment.") }
      | .raised msg =>
        { base with
          supervisor_error_message :=
            some ("Exception invoking new_chat_graph: " ++ msg)
          final_agent_response := some ("I" ++ sqs ++
            "m sorry, an unexpected error occurred while I was thinking.") }
    { result with
        conversation_history := serialize_messages result.conversation_history }

/-- Outcome of `graph_instance.invoke` on the quiz engine graph: the graph
ran (with the given LLM outcome inside the single node), returned a falsy
state, or raised. -/
inductive QuizInvokeOutcome where
  | ran (llm : LLMOutcome)
  | empty
  | raised (msg : String)
  deriving Repr, DecidableEq

/-- The initial `quiz_input` dict built for a brand-new quiz thread
(keys absent from the dict keep their `QuizEngineState` defaults). -/
def quizInitialInput (state : SupervisorState) : QuizEngineState :=
  { status := .generating_first_question
    document_id := state.document_id_for_action
    document_content_snippet := state.document_snippet_for_quiz.getD ""
    user_id := state.user_id
    max_questions := DEFAULT_MAX_QUIZ_QUESTIONS
    active_quiz_thread_id := state.active_quiz_v2_thread_id
    quiz_history := []
    current_question_index := 0
    current_question_number := some 0
    score := 0
    error_message := none
    llm_call_count := 0 }

/-- The `quiz_input` built when continuing an existing quiz: the stored
engine state with the user's utterance attached as the answer and the status
forced to `evaluating_answer`. -/
def quizContinuingInput (q : QuizEngineState) (current_query : String) :
    QuizEngineState :=
  { q with
    user_answer := some current_query
    status := .evaluating_answer }

/-- `invoke_quiz_engine_graph_node`. -/
def invoke_quiz_engine_graph_node (state : SupervisorState)
    (outcome : QuizInvokeOutcome) : SupervisorState :=
  let current_query := pyStrip state.current_query
  let base := { state with
    current_query := current_query
    final_agent_response := none
    supervisor_error_message := none
    next_graph_to_invoke := some .endGraph }
  if state.user_id = "" then
    -- early return, skipping the final serialization
    { base with
      supervisor_error_message := some "User ID is missing. Cannot proceed with quiz."
      final_agent_response := some ("I" ++ sqs ++ "m sorry, I can" ++ sqs ++
        "t start or continue the quiz without knowing who you are.")
      is_quiz_v2_active := false
      active_quiz_v2_thread_id := none }
  else
    let is_initial := state.quiz_engine_state.isNone
    if is_initial ∧ (¬ optTruthy state.document_id_for_action ∨
        ¬ optTruthy state.document_snippet_for_quiz) then
      -- early return, skipping the final serialization
      { base with
        supervisor_error_message :=
          some "Document ID or content snippet is missing for starting a new quiz."
        final_agent_response :=
          some "I need a document to create a quiz. Please select one or provide the content."
        is_quiz_v2_active := false
        active_quiz_v2_thread_id := none }
    else
      let quiz_input :=
        match state.quiz_engine_state with
        | none => quizInitialInput state
        | some q => quizContinuingInput q current_query
      let result :=
        match outcome with
        | .raised msg =>
          { base with
            supervisor_error_message :=
              some ("Exception invoking quiz_engine_graph: " ++ msg)
            final_agent_response :=
              some "Sorry, a system error occurred while running the quiz."
            is_quiz_v2_active := false
            active_quiz_v2_thread_id := none }
        | .empty =>
          { base with
            supervisor_error_message := some "Quiz Engine returned an empty state."
            final_agent_response :=
              some "Sorry, there was a problem processing the quiz. Please try again."
            is_quiz_v2_active := false
            active_quiz_v2_thread_id := none }
        | .ran llm =>
          let response : QuizEngineState := call_quiz_engine_node quiz_input llm
          -- display-text assembly (lines 210–250)
          let final_text0 := response.current_feedback_to_display.getD ""
          let (final_text, opts) : String × Option (List String) :=
            match response.current_question_to_display with
            | some qd =>
              if qd.question_text ≠ "" then
                let question_prefix_str :=
                  match response.current_question_number with
                  | some n =>
                    if n ≠ 0 ∧ response.max_questions ≠ 0 then
                      "Question " ++ toString n ++ "/" ++
                        toString response.max_questions ++ ": "
                    else ""
                  | none => ""
                let full_question_text := question_prefix_str ++ qd.question_text
                let option_lines := qd.options.enum.map
                  fun (p : Nat × String) => toString (p.1 + 1) ++ ". " ++ p.2
                let formatted_question := full_question_text ++ "\n\n" ++
                  String.intercalate "\n\n" option_lines
                (if final_text0 ≠ "" then
                    final_text0 ++ "\n\n" ++ formatted_question
                  else formatted_question,
                 some qd.options)
              else (final_text0, none)
            | none => (final_text0, none)
          let s1 := { base with
            quiz_engine_state := some response
            active_quiz_v2_thread_id := response.active_quiz_thread_id
            quiz_v2_output := some (.engine response)
            is_quiz_v2_active := !(response.status == QuizStatus.quiz_completed ||
              response.status == QuizStatus.error)
            final_agent_response := some final_text
            conversation_history := state.conversation_history ++
              [HistItem.ai ("Quiz engine processed answer. Status: " ++
                response.status.str)]
            options_for_display :=
              match opts with
              | some o => some o
              | none => state.options_for_display }
          -- final status dispatch (lines 254–266) always overwrites
          -- `is_quiz_v2_active` and `next_graph_to_invoke` (the engine never
          -- emits the "quiz_cancelled" status named in line 259)
          if optTruthy response.error_message then
            { s1 with
              supervisor_error_message := some ("Error from Quiz Engine: " ++
                response.error_message.getD "")
              is_quiz_v2_active := false
              active_quiz_v2_thread_id := none
              next_graph_to_invoke := some .endGraph }
          else if response.status = QuizStatus.quiz_completed then
            { s1 with
              is_quiz_v2_active := false
              active_quiz_v2_thread_id := none
              next_graph_to_invoke := some .endGraph }
          else
            { s1 with
              is_quiz_v2_active := true
              next_graph_to_invoke := some .quiz_engine_graph }
      { result with
          conversation_history := serialize_messages result.conversation_history }

/-! ## Supervisor graph wiring (`backend/graphs/supervisor/graph.py`) -/

/-- `route_based_on_decision`: fall back to `new_chat_graph` for a missing or
invalid target (both sub-graph instances are available in the deployed app). -/
def route_based_on_decision (state : SupervisorState) : NextGraph :=
  let next_node := state.next_graph_to_invoke.getD .new_chat_graph
  if next_node = .new_chat_graph ∨ next_node = .quiz_engine_graph ∨
      next_node = .endGraph then next_node
  else .new_chat_graph

/-- The per-turn oracles: collaborator behaviours and minted id suffixes. -/
structure Externals where
  stt : STTOut := .noResult
  docService : Option DocService := none
  chatOutcome : ChatOutcome := .empty
  quizOutcome : QuizInvokeOutcome := .empty
  convSfx : String := "t0"
  chatSfx : String := "c0"
  quizSfx : String := "q0"

/-- One full pass of the supervisor graph: ingestion, routing, then the
selected invoker (or nothing for `end`). -/
def supervisorTurn (s0 : SupervisorState) (ext : Externals) : SupervisorState :=
  let s1 := receive_user_input_node s0 ext.stt ext.chatSfx
  let s2 := applyRoutingUpdates s1 (routing_decision_node s1 ext.docService ext.quizSfx)
  match route_based_on_decision s2 with
  | .new_chat_graph => invoke_new_chat_graph_node s2 ext.chatOutcome
  | .quiz_engine_graph => invoke_quiz_engine_graph_node s2 ext.quizOutcome
  | _ => s2

/-! ## The Turn API route (`agent_chat_route` in `backend/app.py`) -/

/-- A text-mode turn request (the audio upload path runs speech-to-text
before the graph; its effective query is `query` here, with
`has_audio` recording whether audio bytes were supplied). -/
structure TurnRequest where
  user_id : String
  query : String := ""
  has_audio : Bool := false
  thread_id : Option String := none
  document_id : Option String := none
  deriving Repr, DecidableEq

/-- The response body assembled at lines 707–721 (fields the spec names). -/
structure AgentChatResponse where
  thread_id : String
  response_text : Option String
  quiz_active : Bool
  quiz_complete : Bool
  error_detail : Option String
  deriving Repr, DecidableEq

/-- Result of one call to the route: an early HTTP rejection (before any
graph or checkpoint activity), or a completed turn with the response body and
the list of supervisor-checkpoint writes `(thread id, state)` it performed. -/
inductive TurnResult where
  | rejected (httpStatus : Nat) (error : String)
  | completed (response : AgentChatResponse)
      (checkpoint_writes : List (String × SupervisorState))
  deriving Repr, DecidableEq

/-- The `SupervisorState(...)` literal built for a brand-new thread
(lines 562–577): only the listed keys are supplied; all other channels are
empty and read back as their defaults. -/
def initialSupervisorInput (req : TurnRequest) : SupervisorState :=
  { user_id := req.user_id
    current_query := req.query
    conversation_history := []
    active_quiz_thread_id := none
    document_id_for_action := req.document_id
    next_graph_to_invoke := none
    final_agent_response := none
    supervisor_error_message := none
    quiz_active := false
    quiz_complete := false
    quiz_cancelled := false
    audio_input_present := req.has_audio }

/-- The input built for an existing thread (lines 599–618): the retrieved
checkpoint values are re-supplied unchanged except for the request-scoped
keys, and the conversation history is deserialized from the checkpoint (then
deep-serialized again by `safe_supervisor_invoke` before the graph runs). -/
def continuingSupervisorInput (req : TurnRequest) (prior : SupervisorState) :
    SupervisorState :=
  { prior with
    user_id := req.user_id
    current_query := req.query
    audio_input_present := req.has_audio
    document_id_for_action := req.document_id
    conversation_history :=
      serialize_messages (deserialize_messages prior.conversation_history) }

/-- `agent_chat_route` for a turn on thread `req.thread_id` whose stored
supervisor checkpoint is `prior` (`none` when the thread has no checkpoint
yet). Checkpoint writes: the graph's checkpointer stores the post-turn state
under the conversation thread id; the explicit dual write (lines 634–657)
fires only on its stated condition, which reads the legacy
`quiz_active`/`active_quiz_thread_id` keys. -/
def agent_chat_route (req : TurnRequest) (prior : Option SupervisorState)
    (ext : Externals) : TurnResult :=
  if ¬ req.has_audio ∧ req.query = "" then
    .rejected 400 "Query (text or transcribed audio) is required"
  else
    let requestThread := req.thread_id.filter (· ≠ "")
    let thread_id := requestThread.getD ("thread_" ++ req.user_id ++ "_" ++ ext.convSfx)
    let s0 :=
      match requestThread with
      | none => initialSupervisorInput req
      | some _ => continuingSupervisorInput req (prior.getD {})
    let result := supervisorTurn s0 ext
    -- serialize_deep on the returned copy (`safe_supervisor_invoke`)
    let safe_result := { result with
      conversation_history := serialize_messages result.conversation_history }
    let dual_writes :=
      if safe_result.quiz_active ∧ optTruthy safe_result.active_quiz_thread_id ∧
          safe_result.active_quiz_thread_id ≠ some thread_id then
        [(safe_result.active_quiz_thread_id.getD "", safe_result)]
      else []
    let writes := [(thread_id, result)] ++ dual_writes
    let response : AgentChatResponse :=
      { thread_id :=
          match safe_result.active_quiz_thread_id with
          | some t => if t ≠ "" then t else thread_id
          | none => thread_id
        response_text := safe_result.final_agent_response
        quiz_active := safe_result.is_quiz_v2_active
        quiz_complete := safe_result.quiz_complete
        error_detail :=
          if optTruthy safe_result.supervisor_error_message then
            safe_result.supervisor_error_message
          else none }
    .completed response writes

/-- The checkpoint writes a turn performed (none for an early rejection). -/
def TurnResult.writes : TurnResult → List (String × SupervisorState)
  | .rejected _ _ => []
  | .completed _ ws => ws

/-- The response body of a completed turn. -/
def TurnResult.responseBody : TurnResult → Option AgentChatResponse
  | .rejected _ _ => none
  | .completed resp _ => some resp

/-!
# Theorems
-/

/-- **C9.** For every conversation history list whose entries are role-tagged
messages of the supported roles (human, assistant/ai, system), deserializing
the serialization of the list yields messages with exactly the same role tags
and text content, in the same order. -/
theorem serialize_deserialize_roundtrip (msgs : List HistItem)
    (h : ∀ m ∈ msgs, m.isLiveMessage = true) :
    deserialize_messages (serialize_messages msgs) = msgs := by
  induction msgs with
  | nil => rfl
  | cons m rest ih =>
    have hm : m.isLiveMessage = true := h m (by simp)
    have hrest := ih fun x hx => h x (by simp [hx])
    cases m with
    | ser t c => simp [HistItem.isLiveMessage] at hm
    | human c =>
      simpa [serialize_messages, deserialize_messages, messageToDict,
        messageFromDict] using hrest
    | ai c =>
      simpa [serialize_messages, deserialize_messages, messageToDict,
        messageFromDict] using hrest
    | system c =>
      simpa [serialize_messages, deserialize_messages, messageToDict,
        messageFromDict] using hrest

/-- Witness for C9 at a concrete three-role history. -/
theorem serialize_deserialize_roundtrip_witness :
    deserialize_messages (serialize_messages
      [HistItem.human "hi", HistItem.ai "hello", HistItem.system "sys"]) =
      [HistItem.human "hi", HistItem.ai "hello", HistItem.system "sys"] :=
  serialize_deserialize_roundtrip _ (by decide)

/-- The error-branch state: status `error`, error recorded, and every other
key — in particular the quiz history and the score — untouched. -/
theorem quizEngineErrorState_spec (s : QuizEngineState) (msg : String) :
    (quizEngineErrorState s msg).status = .error ∧
    (quizEngineErrorState s msg).quiz_history = s.quiz_history ∧
    (quizEngineErrorState s msg).score = s.score ∧
    (quizEngineErrorState s msg).error_message.isSome = true := by
  simp [quizEngineErrorState]

/-- A reply violating the completion contract never validates. -/
theorem validateLLMResponse_isSome_of_bad (r : LLMQuizResponse)
    (hBad : (r.quiz_is_complete = true ∧ r.next_question.isSome) ∨
      (r.quiz_is_complete = false ∧ r.next_question = none) ∨
      (r.quiz_is_complete = true ∧ r.final_summary = none)) :
    (validateLLMResponse r).isSome = true := by
  unfold validateLLMResponse validateCompletionShape
  rcases hBad with ⟨h1, h2⟩ | ⟨h1, h2⟩ | ⟨h1, h2⟩ <;>
    cases hq : r.next_question <;>
    simp_all <;> split <;> simp_all

/-- **C3.** For every evaluator response in which `quiz_is_complete=true`
coexists with a non-null next question, or `quiz_is_complete=false` with a
null next question, or `quiz_is_complete=true` with a null final summary
(the Pydantic `check_next_question_and_completion` violations), the quiz
engine ends the turn in status `error`, with the quiz history and score
unchanged apart from recording the error. -/
theorem quiz_engine_schema_violation_errors (s : QuizEngineState)
    (r : LLMQuizResponse)
    (hBad : (r.quiz_is_complete = true ∧ r.next_question.isSome) ∨
      (r.quiz_is_complete = false ∧ r.next_question = none) ∨
      (r.quiz_is_complete = true ∧ r.final_summary = none)) :
    (call_quiz_engine_node s (.ok r)).status = .error ∧
    (call_quiz_engine_node s (.ok r)).quiz_history = s.quiz_history ∧
    (call_quiz_engine_node s (.ok r)).score = s.score ∧
    (call_quiz_engine_node s (.ok r)).error_message.isSome = true := by
  have hv := validateLLMResponse_isSome_of_bad r hBad
  unfold call_quiz_engine_node
  split
  · split
    · exact quizEngineErrorState_spec ..
    · cases hval : validateLLMResponse r with
      | none => rw [hval] at hv; simp at hv
      | some e => simp only [hval]; exact quizEngineErrorState_spec ..
  · exact quizEngineErrorState_spec ..

/-- A one-question engine state awaiting evaluation, for witnesses. -/
def sampleEvalState : QuizEngineState :=
  { status := .evaluating_answer
    quiz_history := [{
      question_text := "q"
      options := ["a", "b"]
      correct_answer_index := 0
      correct_answer_text := "a"
      explanation_for_correct_answer := none
      user_answer := none
      is_correct_from_llm := none
      feedback_from_llm := none }]
    current_question_index := 0
    user_answer := some "a"
    max_questions := 2
    score := 0 }

/-- A contract-violating reply: completion claimed together with a next
question. -/
def badCompleteReply : LLMQuizResponse :=
  { feedback_for_user := some "fb"
    is_correct := some true
    next_question := some {
      question_text := "q2"
      options := ["x", "y"]
      correct_answer_index := 1
      explanation_for_correct_answer := none }
    quiz_is_complete := true
    final_summary := some "done" }

/-- Witness for C3: a reply claiming completion while still carrying a next
question is rejected with status `error`, leaving history and score alone. -/
theorem quiz_engine_schema_violation_errors_witness :
    (call_quiz_engine_node sampleEvalState (.ok badCompleteReply)).status
        = .error ∧
    (call_quiz_engine_node sampleEvalState (.ok badCompleteReply)).score = 0 := by
  have h := quiz_engine_schema_violation_errors sampleEvalState
    badCompleteReply (by decide)
  exact ⟨h.1, h.2.2.1.trans rfl⟩

/-- **C10.** Quiz cancellation matching is exact: an utterance cancels iff,
after lowercasing and stripping, it equals one of exactly four phrases; an
utterance merely containing such a phrase is not a cancellation and, during
an active quiz, is forwarded to the quiz as an answer (no quiz key is
touched); quiz-start matching, by contrast, is by substring containment
(plus the exact `/start_quiz` command). -/
theorem cancel_matching_is_exact (q : String) :
    (is_cancel_query q = true ↔
      (pyStrip (pyLower q) = "cancel quiz" ∨ pyStrip (pyLower q) = "stop quiz" ∨
        pyStrip (pyLower q) = "exit quiz" ∨ pyStrip (pyLower q) = "end quiz")) ∧
    (is_quiz_start_query q = true ↔
      (removeQuotes (pyStrip (pyLower q)) = "/start_quiz" ∨
        containsSubstr (removeQuotes (pyStrip (pyLower q))) "start quiz" = true ∨
        containsSubstr (removeQuotes (pyStrip (pyLower q))) "quiz me on" = true ∨
        containsSubstr (removeQuotes (pyStrip (pyLower q))) "begin quiz" = true)) ∧
    (∀ (s : SupervisorState) (svc : Option DocService) (sfx : String),
      s.is_quiz_v2_active = true →
      is_cancel_query (pyLower (pyStrip s.current_query)) = false →
      (routing_decision_node s svc sfx).next_graph_to_invoke =
        some (some .quiz_engine_graph) ∧
      (routing_decision_node s svc sfx).active_quiz_v2_thread_id = none ∧
      (routing_decision_node s svc sfx).is_quiz_v2_active = none) := by
  refine ⟨?_, ?_, ?_⟩
  · simp [is_cancel_query]
  · simp only [is_quiz_start_query, List.any_cons, List.any_nil,
      Bool.or_false, Bool.or_eq_true]
    split
    · simp_all
    · simp_all [or_assoc]
  · intro s svc sfx hAct hCan
    unfold routing_decision_node
    simp [hAct, hCan]

/-- Witness for C10: instantiated at "please cancel quiz now", which contains
the phrase but is not an exact match, during an active quiz. -/
theorem cancel_matching_is_exact_witness :
    is_cancel_query "please cancel quiz now" = false ∧
    containsSubstr "please cancel quiz now" "cancel quiz" = true ∧
    (routing_decision_node
        { user_id := "u1", current_query := "please cancel quiz now",
          is_quiz_v2_active := true,
          active_quiz_v2_thread_id := some "qt1" } none
        "sfx").next_graph_to_invoke = some (some .quiz_engine_graph) := by
  have h := (cancel_matching_is_exact "please cancel quiz now").2.2
    { user_id := "u1", current_query := "please cancel quiz now",
      is_quiz_v2_active := true, active_quiz_v2_thread_id := some "qt1" }
    none "sfx" rfl (by decide)
  exact ⟨by decide, by decide, h.1⟩

/-- Can a quiz-start turn resolve document content? (`none` service, missing
or empty document id, a failed fetch, and an empty snippet all resolve to
`false`, mirroring the guards of routing step 3.) -/
def contentResolvable (svc : Option DocService) (docId : Option String) :
    Bool :=
  match svc, docId with
  | some service, some d =>
    if d = "" then false
    else
      let (fetch_success, snippet, _) := service.get_document_content_for_quiz d
      fetch_success && optTruthy snippet
  | _, _ => false

/-- **C7.** For every turn that requests a quiz start (preliminary target
`quiz_engine_graph`, or a quiz-start phrase, with no quiz active and not
intercepted by the document-understanding route) where no document content
is resolvable — the document id is missing, the service is unavailable, the
content fetch fails, or it returns empty — the target becomes `end`
(terminate), an explanatory error is set, and the quiz-active flag stays
false. -/
theorem quiz_start_without_content_terminates (s : SupervisorState)
    (svc : Option DocService) (sfx : String)
    (hNoQuiz : s.is_quiz_v2_active = false)
    (hStart : s.next_graph_to_invoke = some .quiz_engine_graph ∨
      is_quiz_start_query (pyLower (pyStrip s.current_query)) = true)
    (hNotDua : s.next_graph_to_invoke ≠ some .document_understanding_graph)
    (hNoContent : contentResolvable svc s.document_id_for_action = false) :
    (applyRoutingUpdates s (routing_decision_node s svc sfx)).next_graph_to_invoke
        = some .endGraph ∧
    (applyRoutingUpdates s
        (routing_decision_node s svc sfx)).supervisor_error_message.isSome
        = true ∧
    (applyRoutingUpdates s (routing_decision_node s svc sfx)).is_quiz_v2_active
        = false := by
  unfold routing_decision_node
  simp only [hNoQuiz, Bool.false_eq_true, if_false, reduceIte,
    not_false_eq_true, and_true]
  rw [if_neg hNotDua]
  rw [if_pos hStart]
  by_cases hDoc : optTruthy s.document_id_for_action = true
  · -- a document id is present, so the service/fetch must be failing
    rw [if_neg (by simp [hDoc])]
    match hsvc : svc with
    | none => simp [applyRoutingUpdates, hNoQuiz]
    | some service =>
      cases hdid : s.document_id_for_action with
      | none => rw [hdid] at hDoc; simp [optTruthy] at hDoc
      | some d =>
        have hd : d ≠ "" := by
          rw [hdid] at hDoc; simpa [optTruthy] using hDoc
        have hfetch : ((service.get_document_content_for_quiz d).1 = true ∧
            optTruthy (service.get_document_content_for_quiz d).2.1 = true) →
            False := by
          intro ⟨h1, h2⟩
          rw [hdid] at hNoContent
          simp only [contentResolvable, if_neg hd] at hNoContent
          rw [h1, h2] at hNoContent
          simp at hNoContent
        simp only [hdid, Option.getD_some]
        rw [if_neg hfetch]
        simp [applyRoutingUpdates]
  · rw [if_pos (by simpa using hDoc)]
    simp [applyRoutingUpdates, hNoQuiz]

/-- A document service whose quiz-content fetch always fails. -/
def failingDocService : DocService :=
  { get_document_content_for_quiz :=
      fun _ => (false, none, some "Document content is empty.")
    get_document_metadata := fun _ => (false, {}) }

/-- A normalized "start quiz" turn state naming `doc1`. -/
def quizStartNoContentState : SupervisorState :=
  { user_id := "u1"
    current_query := "start quiz"
    document_id_for_action := some "doc1"
    next_graph_to_invoke := some .quiz_engine_graph }

/-- Witness for C7: a "start quiz" turn naming `doc1` whose content fetch
fails ends at `end` with an error and the quiz flag still false. -/
theorem quiz_start_without_content_terminates_witness :
    (applyRoutingUpdates quizStartNoContentState
        (routing_decision_node quizStartNoContentState
          (some failingDocService) "s3")).next_graph_to_invoke
        = some .endGraph ∧
    (applyRoutingUpdates quizStartNoContentState
        (routing_decision_node quizStartNoContentState
          (some failingDocService) "s3")).is_quiz_v2_active = false := by
  have h := quiz_start_without_content_terminates quizStartNoContentState
    (some failingDocService) "s3" rfl (Or.inl rfl) (by decide) (by decide)
  exact ⟨h.1, h.2.2⟩

/-- **C5.** For every normalized turn in which a quiz is currently active:
if the utterance matches a cancellation phrase, the quiz is deactivated
(flag false, quiz thread id cleared), the target is `end` (terminate) with
the cancellation acknowledgment, and the conversation thread id is
unchanged; for every other utterance the target is `quiz` with the quiz
fields untouched (no new quiz is started, even for a "start quiz" phrase)
and the utterance forwarded to the engine as the answer. -/
theorem active_quiz_cancel_or_forward (s : SupervisorState)
    (svc : Option DocService) (sfx : String)
    (hAct : s.is_quiz_v2_active = true) :
    (is_cancel_query (pyLower (pyStrip s.current_query)) = true →
      (applyRoutingUpdates s
          (routing_decision_node s svc sfx)).is_quiz_v2_active = false ∧
      (applyRoutingUpdates s
          (routing_decision_node s svc sfx)).active_quiz_v2_thread_id = none ∧
      (applyRoutingUpdates s
          (routing_decision_node s svc sfx)).next_graph_to_invoke
          = some .endGraph ∧
      (applyRoutingUpdates s
          (routing_decision_node s svc sfx)).final_agent_response
          = some ("Okay, I" ++ sqs ++
              "ve cancelled the quiz. What would you like to do next?") ∧
      (applyRoutingUpdates s
          (routing_decision_node s svc sfx)).active_chat_thread_id
          = s.active_chat_thread_id) ∧
    (is_cancel_query (pyLower (pyStrip s.current_query)) = false →
      (applyRoutingUpdates s
          (routing_decision_node s svc sfx)).next_graph_to_invoke
          = some .quiz_engine_graph ∧
      (applyRoutingUpdates s
          (routing_decision_node s svc sfx)).active_quiz_v2_thread_id
          = s.active_quiz_v2_thread_id ∧
      (applyRoutingUpdates s
          (routing_decision_node s svc sfx)).is_quiz_v2_active = true ∧
      (∀ (llm : LLMOutcome) (qes : QuizEngineState),
        (applyRoutingUpdates s
            (routing_decision_node s svc sfx)).quiz_engine_state = some qes →
        s.user_id ≠ "" →
        (invoke_quiz_engine_graph_node
            (applyRoutingUpdates s (routing_decision_node s svc sfx))
            (.ran llm)).quiz_engine_state =
          some (call_quiz_engine_node
            (quizContinuingInput qes (pyStrip s.current_query)) llm))) := by
  constructor
  · intro hCan
    unfold routing_decision_node
    simp [hAct, hCan, applyRoutingUpdates]
  · intro hCan
    have hupd : routing_decision_node s svc sfx =
        { next_graph_to_invoke := some (some .quiz_engine_graph)
          document_snippet_for_quiz := some none } := by
      unfold routing_decision_node
      simp [hAct, hCan]
    rw [hupd]
    refine ⟨rfl, rfl, by simpa [applyRoutingUpdates] using hAct, ?_⟩
    intro llm qes hqes huid
    unfold invoke_quiz_engine_graph_node
    simp only [applyRoutingUpdates] at hqes ⊢
    simp only [hqes]
    rw [if_neg (by simpa [applyRoutingUpdates] using huid)]
    simp only [Option.isNone_some, Bool.false_eq_true, false_and, if_false]
    split
    · rfl
    · split <;> rfl

/-- Witness for C5 at "cancel quiz" during an active quiz (the cancellation
half) and "start quiz" during the same active quiz (the forwarding half). -/
theorem active_quiz_cancel_or_forward_witness :
    ((applyRoutingUpdates
        { user_id := "u1", current_query := "cancel quiz",
          is_quiz_v2_active := true, active_quiz_v2_thread_id := some "qt1" }
        (routing_decision_node
          { user_id := "u1", current_query := "cancel quiz",
            is_quiz_v2_active := true, active_quiz_v2_thread_id := some "qt1" }
          none "s")).is_quiz_v2_active = false) ∧
    ((applyRoutingUpdates
        { user_id := "u1", current_query := "start quiz",
          is_quiz_v2_active := true, active_quiz_v2_thread_id := some "qt1" }
        (routing_decision_node
          { user_id := "u1", current_query := "start quiz",
            is_quiz_v2_active := true, active_quiz_v2_thread_id := some "qt1" }
          none "s")).next_graph_to_invoke = some .quiz_engine_graph) := by
  refine ⟨((active_quiz_cancel_or_forward _ none "s" rfl).1 (by decide)).1, ?_⟩
  exact ((active_quiz_cancel_or_forward _ none "s" rfl).2 (by decide)).1

/-! ## The quiz-session score invariant (C6) -/

/-- Invariant of a reachable quiz session state: the score never exceeds the
number of answered history entries; while a question is open (awaiting or
being evaluated) the entry at the current index is still unanswered; and an
evaluation turn always carries the submitted answer (the invoker attaches
`user_answer` before forcing `evaluating_answer`). -/
def QuizInv (s : QuizEngineState) : Prop :=
  s.score ≤ answeredCount s.quiz_history ∧
  ((s.status = .awaiting_answer ∨ s.status = .evaluating_answer) →
    ∀ e, currentEntry s = some e → e.user_answer = none) ∧
  (s.status = .evaluating_answer → s.user_answer.isSome = true)

/-- Does this engine step mark the just-answered entry correct? (The exact
condition under which the source increments `score`.) -/
def marksCorrect (s : QuizEngineState) (llm : LLMOutcome) : Bool :=
  match llm with
  | .exn _ => false
  | .ok r =>
    decide (s.status = .evaluating_answer) &&
    !decide (s.quiz_history = [] ∨ s.current_question_index < 0 ∨
      (s.quiz_history.length : Int) ≤ s.current_question_index) &&
    (validateLLMResponse r).isNone &&
    decide (r.is_correct = some true)

/-- Appending an entry adds its answeredness to the count. -/
theorem answeredCount_append (l : List QuizHistoryEntry)
    (e : QuizHistoryEntry) :
    answeredCount (l ++ [e]) =
      answeredCount l + (if e.user_answer.isSome then 1 else 0) := by
  simp [answeredCount, List.filter_append]
  split <;> simp_all

/-- Overwriting an unanswered entry with an answered one raises the count by
exactly one. -/
theorem answeredCount_set (l : List QuizHistoryEntry) (i : Nat)
    (e e' : QuizHistoryEntry) (hget : l.get? i = some e)
    (hold : e.user_answer = none) (hnew : e'.user_answer.isSome = true) :
    answeredCount (l.set i e') = answeredCount l + 1 := by
  induction l generalizing i with
  | nil => simp at hget
  | cons h t ih =>
    cases i with
    | zero =>
      simp only [List.get?] at hget
      cases hget
      simp [answeredCount, List.filter_cons, hold, hnew]
    | succ n =>
      simp only [List.get?] at hget
      have := ih n hget
      simp only [List.set]
      simp only [answeredCount, List.filter_cons] at this ⊢
      split <;> simp_all

/-- The error branch preserves the invariant and the score. -/
theorem QuizInv_errState (s : QuizEngineState) (msg : String)
    (hInv : QuizInv s) :
    QuizInv (quizEngineErrorState s msg) ∧
      (quizEngineErrorState s msg).score = s.score := by
  refine ⟨⟨hInv.1, ?_, ?_⟩, rfl⟩ <;>
    · intro h
      simp [quizEngineErrorState] at h

/-- A validated reply that does not claim completion carries a next
question. -/
theorem next_question_isSome_of_valid (r : LLMQuizResponse)
    (hval : validateLLMResponse r = none) (hc : r.quiz_is_complete = false) :
    r.next_question.isSome = true := by
  unfold validateLLMResponse validateCompletionShape at hval
  cases hq : r.next_question <;> simp_all

/-- **C6.** For every quiz session state satisfying the session invariant
(score bounded by answered entries, open question unanswered, answer attached
when evaluating — exactly what the invoker establishes), one engine step
preserves the invariant — in particular the score stays at most the number
of answered history entries — and the score increments by exactly 1 exactly
when the evaluator marks the just-answered entry correct. -/
theorem quiz_score_invariant (s : QuizEngineState) (llm : LLMOutcome)
    (hInv : QuizInv s) :
    QuizInv (call_quiz_engine_node s llm) ∧
    (call_quiz_engine_node s llm).score =
      s.score + (if marksCorrect s llm then 1 else 0) := by
  unfold call_quiz_engine_node
  split
  · rename_i hstat
    split
    · rename_i hguard
      have hm : marksCorrect s llm = false := by
        cases llm with
        | exn m => rfl
        | ok r => simp [marksCorrect, hguard.2]
      rw [hm]
      simpa using QuizInv_errState s _ hInv
    · rename_i hguard
      cases llm with
      | exn m =>
        have hm : marksCorrect s (.exn m) = false := rfl
        rw [hm]
        simpa using QuizInv_errState s _ hInv
      | ok r =>
        cases hval : validateLLMResponse r with
        | some e =>
          simp only [hval]
          have hm : marksCorrect s (.ok r) = false := by
            simp [marksCorrect, hval]
          rw [hm]
          simpa using QuizInv_errState s _ hInv
        | none =>
          simp only [hval]
          by_cases heval : r.is_correct.isSome = true ∧
              s.status = QuizStatus.evaluating_answer
          · have hb : ¬(s.quiz_history = [] ∨ s.current_question_index < 0 ∨
                (s.quiz_history.length : Int) ≤ s.current_question_index) :=
              fun h => hguard ⟨heval.2, h⟩
            push_neg at hb
            obtain ⟨hne, hge, hlt⟩ := hb
            have hltn : s.current_question_index.toNat <
                s.quiz_history.length := by omega
            have hget : s.quiz_history.get? s.current_question_index.toNat =
                some (s.quiz_history.get ⟨s.current_question_index.toNat, hltn⟩) :=
              List.get?_eq_get hltn
            have hce : currentEntry s =
                some (s.quiz_history.get ⟨s.current_question_index.toNat, hltn⟩) := by
              simp [currentEntry, hge, hget]
            have hold := hInv.2.1 (Or.inr heval.2) _ hce
            have hans : s.user_answer.isSome = true := hInv.2.2 heval.2
            rw [if_pos heval, hget]
            have hIc : s.score ≤ answeredCount s.quiz_history := hInv.1
            have hb2 : ¬ (s.current_question_index < 0) := by omega
            have hb3 : ¬ ((s.quiz_history.length : Int) ≤
                s.current_question_index) := by omega
            have hsetCount : answeredCount (s.quiz_history.set
                s.current_question_index.toNat
                { (s.quiz_history.get ⟨s.current_question_index.toNat, hltn⟩) with
                  user_answer := s.user_answer
                  is_correct_from_llm := r.is_correct
                  feedback_from_llm := r.feedback_for_user }) =
                answeredCount s.quiz_history + 1 :=
              answeredCount_set _ _ _ _ hget hold (by simpa using hans)
            have hmc : marksCorrect s (.ok r) = decide (r.is_correct = some true) := by
              simp [marksCorrect, heval.2, hval, hne, hb2, hb3]
            have hsc : (if (r.is_correct.isSome = true ∧
                  s.status = QuizStatus.evaluating_answer) ∧
                  r.is_correct = some true then s.score + 1 else s.score) =
                s.score + (if marksCorrect s (.ok r) = true then 1 else 0) := by
              rw [hmc]
              by_cases hc : r.is_correct = some true
              · simp [hc, heval.1, heval.2]
              · simp [hc]
            split
            · -- completion shape
              refine ⟨⟨?_, ?_, ?_⟩, ?_⟩
              · dsimp only
                rw [hsetCount]
                split <;> omega
              · intro h e hcee
                simp at h
              · intro h
                simp at h
              · dsimp only
                exact hsc
            · -- next-question shape
              rename_i hnc
              cases hnq : r.next_question with
              | none =>
                exact absurd (next_question_isSome_of_valid r hval
                  (by simpa using hnc)) (by simp [hnq])
              | some next_q =>
                simp only [hnq]
                refine ⟨⟨?_, ?_, ?_⟩, ?_⟩
                · dsimp only
                  rw [answeredCount_append, hsetCount]
                  split <;> simp <;> omega
                · intro h e2 hcee
                  simp only [currentEntry, List.length_append,
                    List.length_set, List.length_cons, List.length_nil] at hcee
                  split at hcee
                  · have htn : (((s.quiz_history.length + 1 : Nat) : Int) -
                        1).toNat = s.quiz_history.length := by omega
                    rw [htn] at hcee
                    have hcat := List.get?_concat_length
                      (s.quiz_history.set s.current_question_index.toNat
                        { (s.quiz_history.get
                            ⟨s.current_question_index.toNat, hltn⟩) with
                          user_answer := s.user_answer
                          is_correct_from_llm := r.is_correct
                          feedback_from_llm := r.feedback_for_user })
                      { question_text := next_q.question_text
                        options := next_q.options
                        correct_answer_index := next_q.correct_answer_index
                        correct_answer_text :=
                          next_q.options.getD next_q.correct_answer_index ""
                        explanation_for_correct_answer :=
                          next_q.explanation_for_correct_answer
                        user_answer := none
                        is_correct_from_llm := none
                        feedback_from_llm := none }
                    rw [List.length_set] at hcat
                    rw [hcat] at hcee
                    cases hcee
                    rfl
                  · cases hcee
                · intro h
                  simp at h
                · dsimp only
                  exact hsc
          · -- not an evaluation step: history entry and score untouched
            have hmf : marksCorrect s (.ok r) = false := by
              by_cases hst2 : s.status = QuizStatus.evaluating_answer
              · have hic : r.is_correct = none := by
                  cases hic : r.is_correct with
                  | none => rfl
                  | some b => exact absurd ⟨by simp [hic], hst2⟩ heval
                simp [marksCorrect, hic]
              · simp [marksCorrect, hst2]
            rw [if_neg heval,
              if_neg (fun h => heval h.1 :
                ¬((r.is_correct.isSome = true ∧
                    s.status = QuizStatus.evaluating_answer) ∧
                  r.is_correct = some true))]
            split
            · refine ⟨⟨hInv.1, ?_, ?_⟩, by simp [hmf]⟩
              · intro h e2 hcee
                simp at h
              · intro h
                simp at h
            · rename_i hnc
              cases hnq : r.next_question with
              | none =>
                exact absurd (next_question_isSome_of_valid r hval
                  (by simpa using hnc)) (by simp [hnq])
              | some next_q =>
                simp only [hnq]
                refine ⟨⟨?_, ?_, ?_⟩, by simp [hmf]⟩
                · dsimp only
                  rw [answeredCount_append]
                  simpa using hInv.1
                · intro h e2 hcee
                  simp only [currentEntry, List.length_append,
                    List.length_cons, List.length_nil] at hcee
                  split at hcee
                  · have htn : (((s.quiz_history.length + 1 : Nat) : Int) -
                        1).toNat = s.quiz_history.length := by omega
                    rw [htn] at hcee
                    rw [List.get?_concat_length] at hcee
                    cases hcee
                    rfl
                  · cases hcee
                · intro h
                  simp at h
  · rename_i hstat
    have hm : marksCorrect s llm = false := by
      cases llm with
      | exn m => rfl
      | ok r =>
        have hne : ¬ s.status = QuizStatus.evaluating_answer :=
          fun h => hstat (Or.inr h)
        simp [marksCorrect, hne]
    rw [hm]
    simpa using QuizInv_errState s _ hInv

/-- A well-formed evaluation reply grading the answer correct and supplying
the next question. -/
def goodEvalReply : LLMQuizResponse :=
  { feedback_for_user := some "correct"
    is_correct := some true
    next_question := some {
      question_text := "q2"
      options := ["x", "y", "z"]
      correct_answer_index := 2
      explanation_for_correct_answer := none }
    quiz_is_complete := false
    final_summary := none }

/-- Witness for C6: grading the open question correct raises the score by
exactly one and keeps the invariant. -/
theorem quiz_score_invariant_witness :
    (call_quiz_engine_node sampleEvalState (.ok goodEvalReply)).score =
      sampleEvalState.score +
        (if marksCorrect sampleEvalState (.ok goodEvalReply) = true
          then 1 else 0) ∧
    QuizInv (call_quiz_engine_node sampleEvalState (.ok goodEvalReply)) := by
  have h := quiz_score_invariant sampleEvalState (.ok goodEvalReply) ?_
  · exact ⟨h.2, h.1⟩
  · refine ⟨by decide, ?_, by decide⟩
    intro _ e hce
    simp [currentEntry, sampleEvalState] at hce
    simp [← hce]

/-! ## Concrete quiz-start turn (evidence for C1 and C4)

A fresh conversation, utterance "start quiz", document `doc1`, a document
service that resolves content, and an LLM that returns a well-formed first
question: the quiz starts (`is_quiz_v2_active = true` with a fresh quiz
thread id in the post-turn state), which is exactly the situation the
orchestrator's dual-checkpoint rule and the response `thread_id` priority
are about. -/

/-- A document service that resolves quiz content for any id. -/
def okDocService : DocService :=
  { get_document_content_for_quiz := fun _ => (true, some "doc content here", none)
    get_document_metadata := fun _ => (false, {}) }

/-- A well-formed first-question reply. -/
def firstQuestionReply : LLMQuizResponse :=
  { feedback_for_user := none
    is_correct := none
    next_question := some {
      question_text := "What is X?"
      options := ["a", "b", "c", "d"]
      correct_answer_index := 1
      explanation_for_correct_answer := some "because" }
    quiz_is_complete := false
    final_summary := none }

/-- Externals for the quiz-start turn. -/
def startQuizExt : Externals :=
  { docService := some okDocService
    quizOutcome := .ran (.ok firstQuestionReply)
    convSfx := "s1"
    chatSfx := "s2"
    quizSfx := "s3" }

/-- The quiz-start request: new conversation, "start quiz", `doc1`. -/
def startQuizReq : TurnRequest :=
  { user_id := "u1"
    query := "start quiz"
    document_id := some "doc1" }

/-- **C1.** Evidence against the claim: on a turn whose result has the quiz
active under the fresh quiz thread id `quiz_v2_thread_u1_doc1_s3` (different
from the conversation thread id `thread_u1_s1`), the orchestrator writes a
checkpoint only under the conversation thread id — the dual-write block
tests the legacy `quiz_active`/`active_quiz_thread_id` keys, which no node
ever sets, so it never fires and the quiz thread id is never checkpointed. -/
theorem dual_checkpoint_write_never_fires :
    ((agent_chat_route startQuizReq none startQuizExt).writes.map Prod.fst =
      ["thread_u1_s1"]) ∧
    ((agent_chat_route startQuizReq none startQuizExt).writes.map
      (fun w => (w.2.is_quiz_v2_active, w.2.active_quiz_v2_thread_id)) =
      [(true, some "quiz_v2_thread_u1_doc1_s3")]) ∧
    ("quiz_v2_thread_u1_doc1_s3" ≠ "thread_u1_s1") :=
  ⟨rfl, rfl, by decide⟩

/-- **C4.** Evidence against the claim: on the same quiz-start turn the
response reports the quiz as active (`quiz_active = true`, from
`is_quiz_v2_active`), yet its `thread_id` is the conversation thread id, not
the active quiz thread id — line 710 reads the legacy
`active_quiz_thread_id` key, which is always null. -/
theorem response_thread_id_not_quiz_thread :
    ((agent_chat_route startQuizReq none startQuizExt).responseBody.map
      (fun resp => (resp.thread_id, resp.quiz_active)) =
      some ("thread_u1_s1", true)) ∧
    ((agent_chat_route startQuizReq none startQuizExt).writes.map
      (fun w => w.2.active_quiz_v2_thread_id) =
      [some "quiz_v2_thread_u1_doc1_s3"]) ∧
    ("thread_u1_s1" ≠ "quiz_v2_thread_u1_doc1_s3") :=
  ⟨rfl, rfl, by decide⟩

/-- **C8.** For every turn with an empty utterance and no audio (and an
empty conversation history), the route rejects the request with HTTP 400 and
the specific error "Query (text or transcribed audio) is required", before
any routing target is computed, any capability is invoked, or any checkpoint
is written (so no checkpoint can be corrupted): the turn terminates at the
input-validation boundary. -/
theorem empty_turn_rejected (req : TurnRequest)
    (prior : Option SupervisorState) (ext : Externals)
    (hq : req.query = "") (ha : req.has_audio = false)
    (_hh : ∀ p ∈ prior, p.conversation_history = []) :
    agent_chat_route req prior ext =
      .rejected 400 "Query (text or transcribed audio) is required" ∧
    (agent_chat_route req prior ext).writes = [] := by
  unfold agent_chat_route
  rw [if_pos (by simp [ha, hq])]
  exact ⟨rfl, rfl⟩

/-- Witness for C8 at a concrete empty text turn on a fresh thread. -/
theorem empty_turn_rejected_witness :
    agent_chat_route { user_id := "u1", query := "" } none {} =
      .rejected 400 "Query (text or transcribed audio) is required" :=
  (empty_turn_rejected { user_id := "u1", query := "" } none {} rfl rfl
    (by simp)).1


/-- `receive_finalize` never touches the quiz fields. -/
theorem receive_finalize_preserves_quiz_fields (s : SupervisorState)
    (sfx : String) :
    (receive_finalize s sfx).is_quiz_v2_active = s.is_quiz_v2_active ∧
    (receive_finalize s sfx).active_quiz_v2_thread_id =
        s.active_quiz_v2_thread_id ∧
    (receive_finalize s sfx).quiz_engine_state = s.quiz_engine_state := by
  unfold receive_finalize
  repeat' split <;> simp_all

/-- The ingestion node never touches the quiz fields. -/
theorem receive_preserves_quiz_fields (s : SupervisorState) (stt : STTOut)
    (sfx : String) :
    (receive_user_input_node s stt sfx).is_quiz_v2_active =
        s.is_quiz_v2_active ∧
    (receive_user_input_node s stt sfx).active_quiz_v2_thread_id =
        s.active_quiz_v2_thread_id ∧
    (receive_user_input_node s stt sfx).quiz_engine_state =
        s.quiz_engine_state := by
  unfold receive_user_input_node
  repeat'
    first
      | exact ⟨rfl, rfl, rfl⟩
      | exact receive_finalize_preserves_quiz_fields _ _
      | dsimp only
      | split

/-- The quiz engine never changes its `active_quiz_thread_id`. -/
theorem call_quiz_engine_node_thread_id (q : QuizEngineState)
    (llm : LLMOutcome) :
    (call_quiz_engine_node q llm).active_quiz_thread_id =
      q.active_quiz_thread_id := by
  unfold call_quiz_engine_node
  repeat'
    first
      | rfl
      | dsimp only
      | split


/-- The C2 property: the quiz-active flag equals non-nullness of the active
quiz thread id. -/
def flagConsistent (s : SupervisorState) : Prop :=
  s.is_quiz_v2_active = s.active_quiz_v2_thread_id.isSome

/-- The inductive session invariant: flag consistency, plus the auxiliary
fact that any stored quiz-engine state carries a quiz thread id (needed
because the invoker re-activates the flag from that stored state). -/
def SupInv (s : SupervisorState) : Prop :=
  flagConsistent s ∧
  ∀ q, s.quiz_engine_state = some q → q.active_quiz_thread_id.isSome = true

/-- The routing node's update dict never carries `quiz_engine_state`. -/
theorem applyRoutingUpdates_quiz_engine_state (s : SupervisorState)
    (u : RoutingUpdates) :
    (applyRoutingUpdates s u).quiz_engine_state = s.quiz_engine_state := rfl

/-- The routing node preserves flag consistency, and whenever it targets
the quiz engine the quiz is marked active. -/
theorem routing_preserves_consistency (s : SupervisorState)
    (svc : Option DocService) (sfx : String) (hc : flagConsistent s) :
    flagConsistent (applyRoutingUpdates s (routing_decision_node s svc sfx)) ∧
    ((applyRoutingUpdates s
        (routing_decision_node s svc sfx)).next_graph_to_invoke =
        some .quiz_engine_graph →
      (applyRoutingUpdates s
        (routing_decision_node s svc sfx)).is_quiz_v2_active = true) := by
  unfold routing_decision_node
  repeat' split <;> (try simp_all [applyRoutingUpdates, flagConsistent])

/-- The chat invoker passes the quiz fields through unchanged. -/
theorem chat_invoker_preserves_quiz_fields (s : SupervisorState)
    (outcome : ChatOutcome) :
    (invoke_new_chat_graph_node s outcome).is_quiz_v2_active =
        s.is_quiz_v2_active ∧
    (invoke_new_chat_graph_node s outcome).active_quiz_v2_thread_id =
        s.active_quiz_v2_thread_id ∧
    (invoke_new_chat_graph_node s outcome).quiz_engine_state =
        s.quiz_engine_state := by
  unfold invoke_new_chat_graph_node
  repeat'
    first
      | exact ⟨rfl, rfl, rfl⟩
      | dsimp only
      | split

/-- The quiz invoker preserves the session invariant (given that routing
only sends it states with the quiz marked active). -/
theorem quiz_invoker_preserves_SupInv (s : SupervisorState)
    (outcome : QuizInvokeOutcome) (hInv : SupInv s)
    (hact : s.is_quiz_v2_active = true) :
    SupInv (invoke_quiz_engine_graph_node s outcome) := by
  obtain ⟨hc, hq⟩ := hInv
  have hthread : s.active_quiz_v2_thread_id.isSome = true := by
    rw [← hc]; exact hact
  unfold invoke_quiz_engine_graph_node
  dsimp only
  split
  · exact ⟨by simp [flagConsistent], hq⟩
  · split
    · exact ⟨by simp [flagConsistent], hq⟩
    · cases outcome with
      | raised msg => exact ⟨by simp [flagConsistent], hq⟩
      | empty => exact ⟨by simp [flagConsistent], hq⟩
      | ran llm =>
        have hqthread : (match s.quiz_engine_state with
            | none => quizInitialInput s
            | some q => quizContinuingInput q
                (pyStrip s.current_query)).active_quiz_thread_id.isSome
            = true := by
          cases hqe : s.quiz_engine_state with
          | none => simpa [quizInitialInput] using hthread
          | some q => simpa [quizContinuingInput] using hq q hqe
        dsimp only
        split
        · refine ⟨by simp [flagConsistent], ?_⟩
          intro q hqe
          cases hqe
          rw [call_quiz_engine_node_thread_id]
          exact hqthread
        · split
          · refine ⟨by simp [flagConsistent], ?_⟩
            intro q hqe
            cases hqe
            rw [call_quiz_engine_node_thread_id]
            exact hqthread
          · constructor
            · show (true : Bool) = _
              rw [call_quiz_engine_node_thread_id]
              exact hqthread.symm
            · intro q hqe
              cases hqe
              rw [call_quiz_engine_node_thread_id]
              exact hqthread

/-- The dispatcher reaches the quiz invoker only from an explicit
`quiz_engine_graph` target. -/
theorem route_quiz_imp (s : SupervisorState)
    (h : route_based_on_decision s = .quiz_engine_graph) :
    s.next_graph_to_invoke = some .quiz_engine_graph := by
  unfold route_based_on_decision at h
  cases hn : s.next_graph_to_invoke with
  | none => rw [hn] at h; simp at h
  | some g => rw [hn] at h; cases g <;> simp_all

/-- One full supervisor pass preserves the session invariant. -/
theorem supervisorTurn_preserves_SupInv (s0 : SupervisorState)
    (ext : Externals) (hInv : SupInv s0) :
    SupInv (supervisorTurn s0 ext) := by
  obtain ⟨hrf1, hrf2, hrf3⟩ :=
    receive_preserves_quiz_fields s0 ext.stt ext.chatSfx
  have hInv1 : SupInv (receive_user_input_node s0 ext.stt ext.chatSfx) := by
    refine ⟨?_, ?_⟩
    · unfold flagConsistent
      rw [hrf1, hrf2]
      exact hInv.1
    · intro q hqe
      exact hInv.2 q (hrf3 ▸ hqe)
  obtain ⟨hc2, hnq2⟩ := routing_preserves_consistency
    (receive_user_input_node s0 ext.stt ext.chatSfx) ext.docService
    ext.quizSfx hInv1.1
  have hInv2 : SupInv (applyRoutingUpdates
      (receive_user_input_node s0 ext.stt ext.chatSfx)
      (routing_decision_node (receive_user_input_node s0 ext.stt ext.chatSfx)
        ext.docService ext.quizSfx)) := by
    refine ⟨hc2, ?_⟩
    intro q hqe
    exact hInv1.2 q (by
      rw [← applyRoutingUpdates_quiz_engine_state
        (receive_user_input_node s0 ext.stt ext.chatSfx)
        (routing_decision_node (receive_user_input_node s0 ext.stt ext.chatSfx)
          ext.docService ext.quizSfx)]
      exact hqe)
  unfold supervisorTurn
  dsimp only
  cases hroute : route_based_on_decision (applyRoutingUpdates
      (receive_user_input_node s0 ext.stt ext.chatSfx)
      (routing_decision_node (receive_user_input_node s0 ext.stt ext.chatSfx)
        ext.docService ext.quizSfx)) with
  | new_chat_graph =>
    obtain ⟨h1, h2, h3⟩ := chat_invoker_preserves_quiz_fields
      (applyRoutingUpdates (receive_user_input_node s0 ext.stt ext.chatSfx)
        (routing_decision_node (receive_user_input_node s0 ext.stt ext.chatSfx)
          ext.docService ext.quizSfx)) ext.chatOutcome
    refine ⟨?_, ?_⟩
    · unfold flagConsistent
      rw [h1, h2]
      exact hInv2.1
    · intro q hqe
      exact hInv2.2 q (h3 ▸ hqe)
  | quiz_engine_graph =>
    exact quiz_invoker_preserves_SupInv _ _ hInv2
      (hnq2 (route_quiz_imp _ hroute))
  | endGraph => exact hInv2
  | document_understanding_graph => exact hInv2
  | selfGraph => exact hInv2

/-- Every checkpoint a turn writes satisfies flag consistency. -/
def checkpointsConsistent (r : TurnResult) : Prop :=
  ∀ w ∈ r.writes,
    (w.2).is_quiz_v2_active = (w.2).active_quiz_v2_thread_id.isSome

/-- **C2.** After every turn, for every session state the turn checkpoints,
the quiz-active flag equals the non-nullness of the active quiz thread id:
`is_quiz_v2_active = true` iff `active_quiz_v2_thread_id` is non-null
(assuming the prior checkpoint, if any, satisfied the session invariant —
which fresh threads do by construction). -/
theorem quiz_flag_checkpoint_consistency (req : TurnRequest)
    (prior : Option SupervisorState) (ext : Externals)
    (hp : ∀ p ∈ prior, SupInv p) :
    checkpointsConsistent (agent_chat_route req prior ext) := by
  have hInv0 : SupInv (match (req.thread_id.filter (fun t => t ≠ "")) with
      | none => initialSupervisorInput req
      | some _ => continuingSupervisorInput req (prior.getD {})) := by
    cases hrt : req.thread_id.filter (fun t => t ≠ "") with
    | none =>
      refine ⟨rfl, ?_⟩
      intro q h
      simp [initialSupervisorInput] at h
    | some t =>
      have hpInv : SupInv (prior.getD {}) := by
        cases prior with
        | none =>
          refine ⟨rfl, ?_⟩
          intro q h
          simp at h
        | some p => exact hp p (by simp)
      exact ⟨hpInv.1, hpInv.2⟩
  unfold agent_chat_route
  split
  · intro w hw
    simp [TurnResult.writes] at hw
  · have hres := supervisorTurn_preserves_SupInv _ ext hInv0
    intro w hw
    simp only [TurnResult.writes, List.mem_append, List.mem_singleton] at hw
    rcases hw with hw | hw
    · rw [hw]
      exact hres.1
    · split at hw
      · rw [List.mem_singleton] at hw
        rw [hw]
        exact hres.1
      · simp at hw

/-- Witness for C2 at the concrete quiz-start turn. -/
theorem quiz_flag_checkpoint_consistency_witness :
    checkpointsConsistent (agent_chat_route startQuizReq none startQuizExt) :=
  quiz_flag_checkpoint_consistency startQuizReq none startQuizExt (by simp)

end LexiAid
